import Mathlib

/- Verification of the FFmpeg auto-download subsystem of Cut-Pro (auto.py):
   the availability gate, the mirror list, the parallel range fetcher's
   partitioning / pre-allocation / size verification, the streaming fallback
   read loop, the progress formatter, the aria2 strategy probe, and the
   archive-extraction install step.  Each Lean definition is a shallow
   embedding of the corresponding Python function, with the source location
   recorded in its doc comment. -/

namespace CutPro

/-! ## Availability gate (auto.py lines 299-310) -/

/-- Kind of a filesystem entry, as distinguished by `os.path.exists` (any
entry) and `os.path.isfile` (regular files only). -/
inductive FileKind
  | absent
  | file
  | dir
  deriving DecidableEq

/-- Embedding of `get_ffmpeg_executable` (auto.py 299-305).  Paths are lists
of components; `ffmpeg_folder` stands for `get_ffmpeg_folder()` and
`isWindows` for `platform.system() == "Windows"`.  The result is
`<ffmpeg_folder>/bin/ffmpeg.exe` on Windows and `<ffmpeg_folder>/bin/ffmpeg`
otherwise. -/
def get_ffmpeg_executable (isWindows : Bool) (ffmpeg_folder : List String) : List String :=
  if isWindows then ffmpeg_folder ++ ["bin", "ffmpeg.exe"]
  else ffmpeg_folder ++ ["bin", "ffmpeg"]

/-- Embedding of `is_ffmpeg_available` (auto.py 307-310):
`os.path.exists(p) and os.path.isfile(p)` for the executable path.  The
filesystem is passed in as a pure map from paths to `FileKind`, so the check
has no side effects by construction. -/
def is_ffmpeg_available (fs : List String → FileKind) (isWindows : Bool)
    (ffmpeg_folder : List String) : Bool :=
  let ffmpeg_path := get_ffmpeg_executable isWindows ffmpeg_folder
  (fs ffmpeg_path != FileKind.absent) && (fs ffmpeg_path == FileKind.file)

/-! ## Mirror list (auto.py lines 312-333) -/

/-- URL list returned for `platform.system() == "Windows"` (auto.py 315-320). -/
def windowsFfmpegURLs : List String :=
  ["https://www.gyan.dev/ffmpeg/builds/ffmpeg-release-essentials.zip",
   "https://github.com/BtbN/FFmpeg-Builds/releases/download/latest/ffmpeg-master-latest-win64-gpl.zip",
   "https://github.com/GyanD/codexffmpeg/releases/download/7.1/ffmpeg-7.1-essentials_build.zip"]

/-- URL list returned for `platform.system() == "Darwin"` (auto.py 321-324). -/
def darwinFfmpegURLs : List String :=
  ["https://evermeet.cx/ffmpeg/ffmpeg-6.0.zip"]

/-- URL list returned for every other platform string (auto.py 325-328). -/
def linuxFfmpegURLs : List String :=
  ["https://johnvansickle.com/ffmpeg/releases/ffmpeg-release-amd64-static.tar.xz"]

/-- Embedding of `get_ffmpeg_download_urls` (auto.py 312-328); `system` is
the value of `platform.system()`. -/
def get_ffmpeg_download_urls (system : String) : List String :=
  if system = "Windows" then windowsFfmpegURLs
  else if system = "Darwin" then darwinFfmpegURLs
  else linuxFfmpegURLs

/-- Embedding of `get_ffmpeg_download_url` (auto.py 330-333):
`urls[0] if urls else None`. -/
def get_ffmpeg_download_url (system : String) : Option String :=
  match get_ffmpeg_download_urls system with
  | [] => none
  | u :: _ => some u

/-! ## Parallel range fetcher: partitioning (auto.py lines 604-637) -/

/-- The `CHUNK_SIZE` constant of `download_with_ultra_speed` (auto.py 606):
2 MiB. -/
def CHUNK_SIZE : Nat := 2 * 1024 * 1024

/-- The `MAX_CONNECTIONS` constant of `download_with_ultra_speed`
(auto.py 605). -/
def MAX_CONNECTIONS : Nat := 32

/-- The local `chunk_size = max(CHUNK_SIZE, total_size // MAX_CONNECTIONS)`
of auto.py 633. -/
def chunk_size (total_size : Nat) : Nat :=
  max CHUNK_SIZE (total_size / MAX_CONNECTIONS)

/-- Range-building loop of auto.py 634-637:
`for i in range(0, total_size, chunk_size): ranges.append((i, min(i + chunk_size - 1, total_size - 1)))`.
The loop is written with a fuel argument so that it is structurally
recursive; `fuel = total_size` is always enough because `cs ≥ 1`, so `i`
advances by at least 1 per iteration (see `chunkRangesAux_empty` and the
fuel side conditions of the lemmas below). -/
def chunkRangesAux (total_size cs : Nat) : Nat → Nat → List (Nat × Nat)
  | 0, _ => []
  | fuel + 1, i =>
    if i < total_size then
      (i, min (i + cs - 1) (total_size - 1)) :: chunkRangesAux total_size cs fuel (i + cs)
    else []

/-- The full `ranges` list computed by `download_with_ultra_speed`
(auto.py 633-637). -/
def chunkRanges (total_size : Nat) : List (Nat × Nat) :=
  chunkRangesAux total_size (chunk_size total_size) total_size 0

/-- Number of ranges in `rs` that contain byte offset `n`.  The partition
property of the spec is `coverCount rs n = 1` for all `n < total_size`. -/
def coverCount (rs : List (Nat × Nat)) (n : Nat) : Nat :=
  rs.countP (fun r => decide (r.1 ≤ n) && decide (n ≤ r.2))

/-! ## Parallel range fetcher: pre-allocation, reassembly and the size
verification (auto.py lines 639-642, 709-726) -/

/-- Semantics of a `seek(pos)` followed by `write(data)` on a file whose
current content is `file` (bytes as `Nat`): bytes before `pos` are kept,
a seek past the end zero-pads, `data` overwrites at offset `pos`, and any
bytes after `pos + len(data)` are kept. -/
def writeAt (file : List Nat) (pos : Nat) (data : List Nat) : List Nat :=
  file.take pos ++ List.replicate (pos - file.length) 0 ++ data
    ++ file.drop (pos + data.length)

/-- Pre-allocation step of auto.py 639-642: `open(filename, 'wb')`
truncates the file to empty, then `f.seek(total_size - 1); f.write(b'\x30')`
(a single byte) makes it exactly `total_size` bytes long.  Only executed
with `total_size ≥ 1` thanks to the guard at auto.py 624. -/
def preallocateFile (total_size : Nat) : List Nat :=
  writeAt [] (total_size - 1) [0]

/-- Reassembly loop of auto.py 713-717: the pre-allocated file is opened
`r+b` and each downloaded chunk is written at its start offset.
`downloaded_chunks` holds the `(start, data)` pairs of the chunks whose
download succeeded, in sorted key order; failed chunks are simply absent
(`download_chunk` returns 0 after its `except` branch, auto.py 664-666). -/
def assembleFile (total_size : Nat) (downloaded_chunks : List (Nat × List Nat)) : List Nat :=
  downloaded_chunks.foldl (fun f c => writeAt f c.1 c.2) (preallocateFile total_size)

/-- Size verification of auto.py 719-721:
`actual_size = os.path.getsize(filename); if actual_size == total_size:` --
the success path of the ultra-speed fetcher is entered iff this holds. -/
def ultraSizeCheck (total_size : Nat) (downloaded_chunks : List (Nat × List Nat)) : Bool :=
  (assembleFile total_size downloaded_chunks).length == total_size

/-! ## Mirror guard before pre-allocation (auto.py lines 621-627) -/

/-- Parsed `Content-Length` of one mirror response:
`int(response.headers.get('Content-Length', 0))` (auto.py 623).  `none`
models an absent header (the default `0` is used); `some v` models a header
that parses to the integer `v` (Python's `int` also accepts negative
strings).  An unparseable header raises inside the surrounding `try` and
skips the mirror, like the `total_size == 0` case. -/
def mirrorTotalSize (contentLength : Option Int) : Int :=
  contentLength.getD 0

/-- Guard of auto.py 624-625: `if total_size == 0: continue` -- the mirror
is skipped before pre-allocation iff this is true. -/
def skipsMirror (contentLength : Option Int) : Bool :=
  mirrorTotalSize contentLength == 0

/-- A mirror reaches the pre-allocation `f.seek(total_size - 1)` of
auto.py 640-641 iff it is not skipped by the `total_size == 0` guard. -/
def reachesPrealloc (contentLength : Option Int) : Bool :=
  !(skipsMirror contentLength)

/-! ## Progress formatter (auto.py lines 686 and 1141) -/

/-- The percentage placed into the progress strings:
`progress = int((completed_size / total_size) * 100)` (auto.py 686, and the
same expression at auto.py 1141).  Modelled in exact integer arithmetic as
`downloaded * 100 / total_size` (floor); there is no clamping in the
source. -/
def progressPercent (downloaded total_size : Nat) : Nat :=
  downloaded * 100 / total_size

/-! ## Streaming fallback read loop (auto.py lines 1176-1207) -/

/-- One observed outcome of `response.readinto(buffer)` in the streaming
loop: either it returns a byte count (`chunk 0` is end-of-stream, which
triggers the `break` at auto.py 1179-1180) or it raises (`err`). -/
inductive ReadEvent
  | chunk (bytesRead : Nat)
  | err
  deriving DecidableEq

/-- True exactly for the `err` event. -/
def isErr : ReadEvent → Bool
  | ReadEvent.err => true
  | _ => false

/-- The `while True:` body-read loop of the unknown-size streaming branch
(auto.py 1176-1207), tracking the `downloaded` counter.  `chunk 0` hits
`if not bytes_read: break`; `chunk (n+1)` adds to `downloaded` and
continues; `err` models `except Exception: debug_log(...); continue`
(auto.py 1205-1207) -- the error is swallowed and the loop keeps reading.
An exhausted event list ends the run with the current total. -/
def streamLoop : Nat → List ReadEvent → Nat
  | downloaded, [] => downloaded
  | downloaded, ReadEvent.chunk 0 :: _ => downloaded
  | downloaded, ReadEvent.chunk (n + 1) :: rest => streamLoop (downloaded + (n + 1)) rest
  | downloaded, ReadEvent.err :: rest => streamLoop downloaded rest

/-! ## Strategy probe (auto.py lines 770-825) -/

/-- Environment probed by `get_aria2_path` (auto.py 770-813):
whether the bundled copy exists, whether the copy next to the program
exists, whether `subprocess.run(['aria2c', '--version'], timeout=5)`
succeeds with return code 0 (an exception counts as failure), and which of
the fixed common installation paths exist. -/
structure Aria2Env where
  bundledExists : Bool
  localExists : Bool
  pathVersionOk : Bool
  commonExists : String → Bool

/-- The `common_paths` list of auto.py 799-804. -/
def aria2CommonPaths : List String :=
  ["C:\\Program Files\\aria2\\aria2c.exe",
   "C:\\Program Files (x86)\\aria2\\aria2c.exe",
   "/usr/bin/aria2c",
   "/usr/local/bin/aria2c"]

/-- The `for path in common_paths: if os.path.exists(path): return path`
loop of auto.py 806-810. -/
def firstExistingPath (ex : String → Bool) : List String → Option String
  | [] => none
  | p :: rest => if ex p then some p else firstExistingPath ex rest

/-- Embedding of `get_aria2_path` (auto.py 770-813).  `bundledPath` and
`localPath` stand for the concrete strings `resource_path(...)` and
`os.path.abspath(...)` would produce. -/
def get_aria2_path (env : Aria2Env) (bundledPath localPath : String) : Option String :=
  if env.bundledExists then some bundledPath
  else if env.localExists then some localPath
  else if env.pathVersionOk then some "aria2c"
  else firstExistingPath env.commonExists aria2CommonPaths

/-- Head of `download_with_aria2` (auto.py 815-825): when `get_aria2_path`
returns `None` it falls back to `download_with_requests_simple`
(`simpleFetchResult` is that call's result); otherwise the aria2-based
download runs with the found path. -/
def download_with_aria2 (env : Aria2Env) (bundledPath localPath : String)
    (simpleFetchResult : Bool) (runAria2 : String → Bool) : Bool :=
  match get_aria2_path env bundledPath localPath with
  | none => simpleFetchResult
  | some p => runAria2 p

/-- A probe environment in which every probe location fails. -/
def aria2EnvAllFail : Aria2Env :=
  { bundledExists := false, localExists := false, pathVersionOk := false,
    commonExists := fun _ => false }

/-- Stub for the aria2-based download body; never consulted when the probe
returns `None`. -/
def neverRunAria2 : String → Bool := fun _ => false

/-! ## Install pipeline state (auto.py lines 1234-1257 and 1274-1286) -/

/-- On-disk install state as seen by the availability gate: whether the
expected `bin/ffmpeg` executable is present (the sole persisted truth of
"installed", per the data model). -/
structure InstallFS where
  ffmpegBinPresent : Bool
  deriving DecidableEq

/-- The availability gate evaluated on the abstract install state:
`is_ffmpeg_available()` holds iff the executable is present (this is the
characterization proved for the path-level embedding in
`is_ffmpeg_available_iff`). -/
def is_ffmpeg_available_state (fs : InstallFS) : Bool :=
  fs.ffmpegBinPresent

/-- Layout of an extracted archive (auto.py 1238-1243):
`topFolders` are the directories found at the top of `temp_extract`
(`extracted_folders`), `hasBin d` says whether `<d>/bin` exists, and
`binHasExe d` whether that `bin` directory contains the platform's ffmpeg
executable. -/
structure ArchiveLayout where
  topFolders : List String
  hasBin : String → Bool
  binHasExe : String → Bool

/-- Outcome of one URL iteration of `download_with_requests_simple`
(auto.py 1034-1265) up to the end of extraction: `fail` is any exception
(connection, read, bad zip, ...) caught by the per-URL `except` at
auto.py 1259-1265, which cleans up and moves to the next URL;
`extracted arch` means the download and `zip_ref.extractall` succeeded and
produced the layout `arch`. -/
inductive MirrorOutcome
  | fail
  | extracted (arch : ArchiveLayout)

/-- The per-URL tail of `download_with_requests_simple` (auto.py 1238-1257):
after extraction, the first extracted folder is inspected; if it has a
`bin` subdirectory, that directory is moved over `<ffmpeg_folder>/bin`
(replacing the executable presence by the archive's); in every
non-raising case the function then returns `True` (auto.py 1257) -- there
is no check that `bin` existed, and no availability-gate re-check.
Returns the new state and `some returnValue`, or `none` for "continue to
the next URL". -/
def tryMirror (fs : InstallFS) (o : MirrorOutcome) : InstallFS × Option Bool :=
  match o with
  | MirrorOutcome.fail => (fs, none)
  | MirrorOutcome.extracted arch =>
    match arch.topFolders with
    | [] => (fs, some true)
    | d :: _ =>
      if arch.hasBin d then ({ ffmpegBinPresent := arch.binHasExe d }, some true)
      else (fs, some true)

/-- The URL loop of `download_with_requests_simple` (auto.py 1034-1267):
each URL outcome is tried in order; `return False` once the list is
exhausted (auto.py 1267). -/
def download_with_requests_simple (fs : InstallFS) : List MirrorOutcome → InstallFS × Bool
  | [] => (fs, false)
  | o :: rest =>
    match tryMirror fs o with
    | (fs2, some b) => (fs2, b)
    | (fs2, none) => download_with_requests_simple fs2 rest

/-- Embedding of `ensure_ffmpeg_available` with `parent_window=None`
(auto.py 1274-1286): if the gate already holds, return `True`; otherwise
run the silent download and return its result directly -- no gate re-check
afterwards. -/
def ensure_ffmpeg_available (fs : InstallFS) (outcomes : List MirrorOutcome) :
    InstallFS × Bool :=
  if is_ffmpeg_available_state fs then (fs, true)
  else download_with_requests_simple fs outcomes

/-- An archive whose single top-level folder has no `bin` subdirectory. -/
def noBinArchive : ArchiveLayout :=
  { topFolders := ["ffmpeg-7.1-essentials_build"],
    hasBin := fun _ => false,
    binHasExe := fun _ => false }

/-! ## Helper lemmas -/

/-- Unfolding lemma: the last element of a list with at least two elements
is the last element of its tail. -/
theorem getLast?_cons_cons {α : Type} (a b : α) (l : List α) :
    (a :: b :: l).getLast? = (b :: l).getLast? := rfl

/-- The chunk size of the partition is always positive (it is at least the
2 MiB floor). -/
theorem chunk_size_pos (total_size : Nat) : 0 < chunk_size total_size :=
  Nat.lt_of_lt_of_le (by decide : (0 : Nat) < CHUNK_SIZE) (Nat.le_max_left _ _)

/-- Once the loop index has reached `total_size`, the range loop produces
nothing, whatever fuel remains. -/
theorem chunkRangesAux_empty (total_size cs : Nat) :
    ∀ (fuel i : Nat), total_size ≤ i → chunkRangesAux total_size cs fuel i = [] := by
  intro fuel i h
  cases fuel with
  | zero => rfl
  | succ fuel =>
    simp only [chunkRangesAux]
    rw [if_neg (by omega)]

/-- No range produced from index `i` onwards covers an offset below `i`. -/
theorem coverCount_aux_before (total_size cs : Nat) :
    ∀ (fuel i n : Nat), n < i →
      coverCount (chunkRangesAux total_size cs fuel i) n = 0 := by
  intro fuel
  induction fuel with
  | zero => intro i n _; rfl
  | succ fuel ih =>
    intro i n hn
    by_cases h : i < total_size
    · simp only [chunkRangesAux, if_pos h, coverCount, List.countP_cons]
      rw [if_neg (by simp; omega)]
      simpa [coverCount] using ih (i + cs) n (by omega)
    · simp only [chunkRangesAux, if_neg h]
      rfl

/-- No range produced by the loop covers an offset at or beyond
`total_size`. -/
theorem coverCount_aux_beyond (total_size cs : Nat) :
    ∀ (fuel i n : Nat), total_size ≤ n →
      coverCount (chunkRangesAux total_size cs fuel i) n = 0 := by
  intro fuel
  induction fuel with
  | zero => intro i n _; rfl
  | succ fuel ih =>
    intro i n hn
    by_cases h : i < total_size
    · simp only [chunkRangesAux, if_pos h, coverCount, List.countP_cons]
      rw [if_neg (by simp; omega)]
      simpa [coverCount] using ih (i + cs) n hn
    · simp only [chunkRangesAux, if_neg h]
      rfl

/-- Every offset in `[i, total_size)` is covered by exactly one range,
provided the fuel dominates the remaining distance and the step is
positive. -/
theorem coverCount_aux_cover (total_size cs : Nat) (hcs : 0 < cs) :
    ∀ (fuel i n : Nat), total_size - i ≤ fuel → i ≤ n → n < total_size →
      coverCount (chunkRangesAux total_size cs fuel i) n = 1 := by
  intro fuel
  induction fuel with
  | zero => intro i n h1 h2 h3; omega
  | succ fuel ih =>
    intro i n h1 h2 h3
    have hi : i < total_size := by omega
    simp only [chunkRangesAux, if_pos hi, coverCount, List.countP_cons]
    by_cases hcase : n < i + cs
    · rw [if_pos (by simp; omega)]
      have h0 := coverCount_aux_before total_size cs fuel (i + cs) n (by omega)
      simp only [coverCount] at h0
      omega
    · rw [if_neg (by simp; omega)]
      have h1' := ih (i + cs) n (by omega) (by omega) h3
      simp only [coverCount] at h1'
      omega

/-- From any index still inside the file, the range loop ends with a range
whose end offset is exactly `total_size - 1`. -/
theorem chunkRangesAux_getLast (total_size cs : Nat) (hcs : 0 < cs) :
    ∀ (fuel i : Nat), total_size - i ≤ fuel → i < total_size →
      ∃ s, (chunkRangesAux total_size cs fuel i).getLast? = some (s, total_size - 1) := by
  intro fuel
  induction fuel with
  | zero => intro i h1 h2; omega
  | succ fuel ih =>
    intro i h1 h2
    simp only [chunkRangesAux, if_pos h2]
    by_cases hnext : i + cs < total_size
    · obtain ⟨s, hs⟩ := ih (i + cs) (by omega) hnext
      refine ⟨s, ?_⟩
      cases htail : chunkRangesAux total_size cs fuel (i + cs) with
      | nil => rw [htail] at hs; simp at hs
      | cons b t =>
        rw [htail] at hs
        rw [getLast?_cons_cons]
        exact hs
    · have hempty := chunkRangesAux_empty total_size cs fuel (i + cs) (by omega)
      rw [hempty]
      refine ⟨i, ?_⟩
      have hmin : min (i + cs - 1) (total_size - 1) = total_size - 1 := by omega
      rw [hmin]
      rfl

/-- The read loop treats error events as if they were not there: the bytes
downloaded are those of the non-error events, in order. -/
theorem streamLoop_ignores_errors (downloaded : Nat) (evs : List ReadEvent) :
    streamLoop downloaded evs =
      streamLoop downloaded (evs.filter (fun e => !(isErr e))) := by
  induction evs generalizing downloaded with
  | nil => rfl
  | cons e rest ih =>
    cases e with
    | chunk n =>
      cases n with
      | zero => simp [streamLoop, List.filter, isErr]
      | succ m =>
        simp only [List.filter, isErr, Bool.not_false]
        simp only [streamLoop]
        exact ih (downloaded + (m + 1))
    | err =>
      simp only [List.filter, isErr, Bool.not_true]
      simp only [streamLoop]
      exact ih downloaded

/-! ## Claim theorems -/

/-- C6: the availability gate `is_ffmpeg_available` returns `true` iff the
expected executable exists at `<ffmpeg_folder>/bin/<platform executable>`
and is a regular file; it is a pure function of the filesystem map, so it
has no side effects. -/
theorem is_ffmpeg_available_iff (fs : List String → FileKind) (isWindows : Bool)
    (ffmpeg_folder : List String) :
    is_ffmpeg_available fs isWindows ffmpeg_folder = true ↔
      fs (get_ffmpeg_executable isWindows ffmpeg_folder) = FileKind.file := by
  unfold is_ffmpeg_available
  cases h : fs (get_ffmpeg_executable isWindows ffmpeg_folder) <;> simp [h]

/-- C10: `get_ffmpeg_download_urls` returns a non-empty list for every
platform string, with unrecognized platforms receiving the Linux list, and
`get_ffmpeg_download_url` consequently never returns `None`. -/
theorem ffmpeg_download_urls_never_empty (system : String) :
    get_ffmpeg_download_urls system ≠ [] ∧
    (system = "Windows" ∨ system = "Darwin" ∨
      get_ffmpeg_download_urls system = linuxFfmpegURLs) ∧
    get_ffmpeg_download_url system ≠ none := by
  by_cases h1 : system = "Windows"
  · simp [get_ffmpeg_download_urls, get_ffmpeg_download_url, h1, windowsFfmpegURLs]
  · by_cases h2 : system = "Darwin"
    · simp [get_ffmpeg_download_urls, get_ffmpeg_download_url, h1, h2, darwinFfmpegURLs]
    · simp [get_ffmpeg_download_urls, get_ffmpeg_download_url, h1, h2, linuxFfmpegURLs]

/-- C3: for every positive `total_size`, the ranges computed by the
partitioning step of the parallel fetcher cover `[0, total_size)` exactly
once -- every offset below `total_size` lies in exactly one range, no
offset at or beyond `total_size` lies in any range -- and the last range
ends at `total_size - 1`. -/
theorem chunkRanges_partition (total_size : Nat) (h : 0 < total_size) :
    (∀ n, n < total_size → coverCount (chunkRanges total_size) n = 1) ∧
    (∀ n, total_size ≤ n → coverCount (chunkRanges total_size) n = 0) ∧
    ∃ s, (chunkRanges total_size).getLast? = some (s, total_size - 1) := by
  have hcs := chunk_size_pos total_size
  refine ⟨?_, ?_, ?_⟩
  · intro n hn
    exact coverCount_aux_cover total_size _ hcs total_size 0 n (by omega) (Nat.zero_le n) hn
  · intro n hn
    exact coverCount_aux_beyond total_size _ total_size 0 n hn
  · exact chunkRangesAux_getLast total_size _ hcs total_size 0 (by omega) h

/-- Witness for C3: the partition property instantiated at
`total_size = 3` (a single range `(0, 2)`). -/
theorem chunkRanges_partition_witness :
    0 < 3 ∧
    ((∀ n, n < 3 → coverCount (chunkRanges 3) n = 1) ∧
     (∀ n, 3 ≤ n → coverCount (chunkRanges 3) n = 0) ∧
     ∃ s, (chunkRanges 3).getLast? = some (s, 3 - 1)) :=
  ⟨by decide, chunkRanges_partition 3 (by decide)⟩

/-- C1: the size verification of the parallel fetcher cannot detect a
failed segment.  With `total_size = 10` the partition is the single range
`(0, 9)`; if that segment's download raises, `downloaded_chunks` is empty,
yet the pre-allocated file still has exactly `total_size` bytes, so the
`actual_size == total_size` check of auto.py 719-721 passes and the run is
treated as a complete download. -/
theorem ultra_speed_size_check_defeated :
    chunkRanges 10 = [(0, 9)] ∧ ultraSizeCheck 10 [] = true :=
  ⟨by decide, by decide⟩

/-- C2: `ensure_ffmpeg_available` (silent path) can return `true` while the
availability gate still fails afterwards: with FFmpeg absent and a single
mirror whose archive extracts without a `bin` subdirectory, the pipeline
returns `true` but the final state has no FFmpeg executable -- no path
performs a post-install gate check. -/
theorem ensure_available_true_without_gate :
    (ensure_ffmpeg_available { ffmpegBinPresent := false }
        [MirrorOutcome.extracted noBinArchive]).2 = true ∧
    is_ffmpeg_available_state
      (ensure_ffmpeg_available { ffmpegBinPresent := false }
        [MirrorOutcome.extracted noBinArchive]).1 = false :=
  ⟨rfl, rfl⟩

/-- C4: an extracted archive whose top-level folder has no `bin`
subdirectory does not make the install fail: the move is silently skipped
and the URL iteration still reports success (`return True`), leaving the
install state unchanged. -/
theorem install_missing_bin_reports_success :
    tryMirror { ffmpegBinPresent := false } (MirrorOutcome.extracted noBinArchive) =
      ({ ffmpegBinPresent := false }, some true) :=
  rfl

/-- C5 counterexample: the streaming read loop is not aborted by a read
error.  In the run `[err, chunk 7, chunk 0]` the loop keeps reading after
the error (7 further bytes are consumed), so its result differs from the
run that ends at the error -- under the claimed abort-on-error semantics
the two would be equal. -/
theorem streamLoop_continues_after_read_error :
    ¬ (streamLoop 0 [ReadEvent.err, ReadEvent.chunk 7, ReadEvent.chunk 0] =
        streamLoop 0 [ReadEvent.err]) := by
  decide

/-- C5 (amended): a body-read error in the streaming loop is caught and
swallowed; the loop continues with the remaining reads exactly as if the
error had not occurred (`continue` at auto.py 1205-1207).  Abort-and-remove
applies only to exceptions that escape the download block, which read
errors never do. -/
theorem streamLoop_read_error_swallowed (downloaded : Nat) (evs : List ReadEvent) :
    streamLoop downloaded (ReadEvent.err :: evs) = streamLoop downloaded evs ∧
    streamLoop downloaded evs =
      streamLoop downloaded (evs.filter (fun e => !(isErr e))) :=
  ⟨rfl, streamLoop_ignores_errors downloaded evs⟩

/-- C7 counterexample: the progress formatter does no clamping; at
`bytes_so_far = 3`, `total = 2` the emitted percentage is 150, above 100
(such pairs arise when a mirror ignores `Range` and each chunk read returns
the full body). -/
theorem progressPercent_exceeds_100 : 100 < progressPercent 3 2 := by
  decide

/-- C7 (amended): the emitted percentage is non-negative always, and lies
within `[0, 100]` whenever `bytes_so_far ≤ total`; the code contains no
clamping, so the bound relies on that inequality. -/
theorem progressPercent_in_bounds (downloaded total_size : Nat)
    (htotal : 0 < total_size) (hle : downloaded ≤ total_size) :
    progressPercent downloaded total_size ≤ 100 := by
  unfold progressPercent
  calc downloaded * 100 / total_size
      ≤ total_size * 100 / total_size :=
        Nat.div_le_div_right (Nat.mul_le_mul_right 100 hle)
    _ = 100 := Nat.mul_div_cancel_left 100 htotal

/-- Witness for the amended C7 bound at `downloaded = 1`, `total = 2`. -/
theorem progressPercent_in_bounds_witness :
    0 < 2 ∧ 1 ≤ 2 ∧ progressPercent 1 2 ≤ 100 :=
  ⟨by decide, by decide, progressPercent_in_bounds 1 2 (by decide) (by decide)⟩

/-- C8: when every probe location fails -- no bundled copy, no copy next to
the program, the 5-second version invocation fails, and none of the common
installation paths exist -- `get_aria2_path` returns `None`, and
`download_with_aria2` then falls back to the built-in simple fetch instead
of failing: its result is exactly the simple fetch's result. -/
theorem get_aria2_path_all_probes_fail (env : Aria2Env) (bundledPath localPath : String)
    (simpleFetchResult : Bool) (runAria2 : String → Bool)
    (h1 : env.bundledExists = false) (h2 : env.localExists = false)
    (h3 : env.pathVersionOk = false)
    (h4 : env.commonExists "C:\\Program Files\\aria2\\aria2c.exe" = false)
    (h5 : env.commonExists "C:\\Program Files (x86)\\aria2\\aria2c.exe" = false)
    (h6 : env.commonExists "/usr/bin/aria2c" = false)
    (h7 : env.commonExists "/usr/local/bin/aria2c" = false) :
    get_aria2_path env bundledPath localPath = none ∧
    download_with_aria2 env bundledPath localPath simpleFetchResult runAria2 =
      simpleFetchResult := by
  have hnone : get_aria2_path env bundledPath localPath = none := by
    simp [get_aria2_path, h1, h2, h3, aria2CommonPaths, firstExistingPath,
      h4, h5, h6, h7]
  exact ⟨hnone, by simp [download_with_aria2, hnone]⟩

/-- Witness for C8: the all-probes-fail environment, with a simple-fetch
result of `true` passed through unchanged. -/
theorem get_aria2_path_all_probes_fail_witness :
    aria2EnvAllFail.bundledExists = false ∧
    aria2EnvAllFail.localExists = false ∧
    aria2EnvAllFail.pathVersionOk = false ∧
    aria2EnvAllFail.commonExists "C:\\Program Files\\aria2\\aria2c.exe" = false ∧
    aria2EnvAllFail.commonExists "C:\\Program Files (x86)\\aria2\\aria2c.exe" = false ∧
    aria2EnvAllFail.commonExists "/usr/bin/aria2c" = false ∧
    aria2EnvAllFail.commonExists "/usr/local/bin/aria2c" = false ∧
    (get_aria2_path aria2EnvAllFail "bundled" "local" = none ∧
      download_with_aria2 aria2EnvAllFail "bundled" "local" true neverRunAria2 = true) :=
  ⟨rfl, rfl, rfl, rfl, rfl, rfl, rfl,
    get_aria2_path_all_probes_fail aria2EnvAllFail "bundled" "local" true neverRunAria2
      rfl rfl rfl rfl rfl rfl rfl⟩

/-- C9 counterexample: a mirror reporting a negative `Content-Length`
(here -5) is not caught by the `total_size == 0` guard, so pre-allocation
is reached with `total_size < 1` and `seek(total_size - 1)` gets a negative
offset -- that error branch is reachable. -/
theorem negative_content_length_reaches_prealloc :
    reachesPrealloc (some (-5)) = true ∧ mirrorTotalSize (some (-5)) < 1 := by
  decide

/-- C9 (amended): a mirror whose `Content-Length` is absent or parses to 0
is skipped before pre-allocation, and under the additional assumption that
the parsed length is non-negative, pre-allocation is reached exactly when
`total_size ≥ 1`. -/
theorem prealloc_requires_nonneg_header (contentLength : Option Int)
    (hnn : 0 ≤ mirrorTotalSize contentLength) :
    reachesPrealloc contentLength = true ↔ 1 ≤ mirrorTotalSize contentLength := by
  simp only [reachesPrealloc, skipsMirror, Bool.not_eq_true', beq_eq_false_iff_ne, ne_eq]
  omega

/-- Witness for the amended C9 at a reported `Content-Length` of 7. -/
theorem prealloc_requires_nonneg_header_witness :
    0 ≤ mirrorTotalSize (some 7) ∧
      (reachesPrealloc (some 7) = true ↔ 1 ≤ mirrorTotalSize (some 7)) :=
  ⟨by decide, prealloc_requires_nonneg_header (some 7) (by decide)⟩

end CutPro
